import Mathlib

/-!
# Verification of the go-http-instrument middleware

Shallow embedding of `src/instrumentation/instrument.go` (package
`instrumentation`): the response-writer delegators (`responseWriterDelegator`,
`fancyResponseWriterDelegator`, `rwShared`, `rwH1`, `rwH2`), the sanitize
helpers, the capability probing done in `InstrumentHandlerFuncWithOpts`, the
metric-options construction, the register-or-reuse-or-panic logic, and the
per-request orchestration (gauge inc / defer dec / handler call / counter,
histogram, summary observations).

Go machine integers: `status` is a Go `int` and `written` a Go `int64`; both
are modelled as `Int` (no overflow is reachable in the claims considered,
and Go write results are bounded far below 2^63). Errors returned by the
underlying `http.ResponseWriter` are modelled as `Option String` (`none` =
nil error). The underlying response writer is external: each forwarded call
is recorded in an event log `fwd`, and the value the underlying writer
returns for a `Write`/`ReadFrom`/`WriteString` call is supplied as an input
to the step function, exactly as the Go code receives it.
-/

/-- A call forwarded to the underlying `http.ResponseWriter`. -/
inductive FwdEvent where
  | writeHeader (code : Int)
  | write (blen : Nat)
  | writeString (slen : Nat)
  | readFrom
  | flush
  deriving DecidableEq, Repr

/-- State of a `responseWriterDelegator` (instrument.go lines 209-216):
`status`, `written`, `wroteHeader` start at Go zero values. `fwd` is the
model's log of calls forwarded to the embedded `http.ResponseWriter`. -/
structure responseWriterDelegator where
  status : Int := 0
  written : Int := 0
  wroteHeader : Bool := false
  fwd : List FwdEvent := []
  deriving DecidableEq, Repr

/-- The fresh delegator the middleware builds per request:
`&responseWriterDelegator{ResponseWriter: w}` (all stats fields zero). -/
def initDelegator : responseWriterDelegator := {}

/-- `(r *responseWriterDelegator) WriteHeader(code int)`: sets
`r.status = code` and `r.wroteHeader = true` unconditionally, then forwards
the call to the underlying writer. `rwShared.WriteHeader` (second source
file, lines 446-450) has the identical body on its `stats` record. -/
def responseWriterDelegator.WriteHeader
    (r : responseWriterDelegator) (code : Int) : responseWriterDelegator :=
  { r with status := code, wroteHeader := true,
           fwd := r.fwd ++ [FwdEvent.writeHeader code] }

/-- `(r *responseWriterDelegator) Write(b []byte)`: if `wroteHeader` is
false, first calls `r.WriteHeader(http.StatusOK)` (200); forwards the
payload; the underlying writer returns `(n, err)`; adds `int64(n)` to
`r.written`; returns `(n, err)` unchanged. `blen` is `len(b)`; `(n, err)`
is the underlying writer's result, supplied as input. `rwShared.Write`
(lines 452-459) has the identical body on its `stats` record. -/
def responseWriterDelegator.Write (r : responseWriterDelegator)
    (blen : Nat) (n : Int) (err : Option String) :
    responseWriterDelegator × Int × Option String :=
  let r := if !r.wroteHeader then r.WriteHeader 200 else r
  let r := { r with fwd := r.fwd ++ [FwdEvent.write blen] }
  ({ r with written := r.written + n }, n, err)

/-- `(f *fancyResponseWriterDelegator) ReadFrom(r io.Reader)` (lines
249-256): implicit 200 if no header written, forwards the zero-copy
transfer, adds the transferred count `n` to `written`, returns `(n, err)`
unchanged. `rwH1.ReadFrom` (lines 482-489) is identical. -/
def fancyResponseWriterDelegator.ReadFrom (r : responseWriterDelegator)
    (n : Int) (err : Option String) :
    responseWriterDelegator × Int × Option String :=
  let r := if !r.wroteHeader then r.WriteHeader 200 else r
  let r := { r with fwd := r.fwd ++ [FwdEvent.readFrom] }
  ({ r with written := r.written + n }, n, err)

/-- `(r *rwShared) WriteString(s string)` (lines 461-468): implicit 200 if
no header written, forwards to the underlying writer's `WriteString`, adds
`int64(n)` to `written`, returns `(n, err)` unchanged. `slen` is `len(s)`. -/
def rwShared.WriteString (r : responseWriterDelegator)
    (slen : Nat) (n : Int) (err : Option String) :
    responseWriterDelegator × Int × Option String :=
  let r := if !r.wroteHeader then r.WriteHeader 200 else r
  let r := { r with fwd := r.fwd ++ [FwdEvent.writeString slen] }
  ({ r with written := r.written + n }, n, err)

/-- `(f *fancyResponseWriterDelegator) Flush()` (lines 241-243): pure
forward, no stats effect. -/
def fancyResponseWriterDelegator.Flush
    (r : responseWriterDelegator) : responseWriterDelegator :=
  { r with fwd := r.fwd ++ [FwdEvent.flush] }

/-- One call the wrapped handler makes on the decorator during a request.
For calls whose result comes from the underlying writer, that result is
part of the event (the environment's choice, as the Go code receives it). -/
inductive HOp where
  | writeHeader (code : Int)
  | write (blen : Nat) (n : Int) (err : Option String)
  | writeString (slen : Nat) (n : Int) (err : Option String)
  | readFrom (n : Int) (err : Option String)
  | flush
  deriving DecidableEq, Repr

/-- Apply one handler call to the delegator state. -/
def applyOp (r : responseWriterDelegator) : HOp → responseWriterDelegator
  | HOp.writeHeader code => r.WriteHeader code
  | HOp.write blen n err => (r.Write blen n err).1
  | HOp.writeString slen n err => (rwShared.WriteString r slen n err).1
  | HOp.readFrom n err => (fancyResponseWriterDelegator.ReadFrom r n err).1
  | HOp.flush => fancyResponseWriterDelegator.Flush r

/-- Run a sequence of handler calls against the delegator. -/
def runOps (r : responseWriterDelegator) : List HOp → responseWriterDelegator
  | [] => r
  | op :: rest => runOps (applyOp r op) rest

/-- An op that explicitly sets the status (`WriteHeader`). -/
def HOp.isSetStatus : HOp → Bool
  | HOp.writeHeader _ => true
  | _ => false

/-- An op that writes response body bytes (`Write`, `WriteString`,
`ReadFrom`). -/
def HOp.isBodyWrite : HOp → Bool
  | HOp.write _ _ _ => true
  | HOp.writeString _ _ _ => true
  | HOp.readFrom _ _ => true
  | _ => false

/-- `sanitizeMethod` (instrument.go lines 291-312): canonicalizes the HTTP
method to a lower-case string via an explicit switch, defaulting to
`strings.ToLower`. -/
def sanitizeMethod (m : String) : String :=
  match m with
  | "GET" | "get" => "get"
  | "PUT" | "put" => "put"
  | "HEAD" | "head" => "head"
  | "POST" | "post" => "post"
  | "DELETE" | "delete" => "delete"
  | "CONNECT" | "connect" => "connect"
  | "OPTIONS" | "options" => "options"
  | "NOTIFY" | "notify" => "notify"
  | _ => m.toLower

/-- `sanitizeCode` (instrument.go lines 314-413): maps a status code to its
decimal string via an explicit switch over known codes, defaulting to
`strconv.Itoa`. -/
def sanitizeCode (s : Int) : String :=
  match s with
  | 100 => "100" | 101 => "101"
  | 200 => "200" | 201 => "201" | 202 => "202" | 203 => "203"
  | 204 => "204" | 205 => "205" | 206 => "206"
  | 300 => "300" | 301 => "301" | 302 => "302" | 304 => "304"
  | 305 => "305" | 307 => "307"
  | 400 => "400" | 401 => "401" | 402 => "402" | 403 => "403"
  | 404 => "404" | 405 => "405" | 406 => "406" | 407 => "407"
  | 408 => "408" | 409 => "409" | 410 => "410" | 411 => "411"
  | 412 => "412" | 413 => "413" | 414 => "414" | 415 => "415"
  | 416 => "416" | 417 => "417" | 418 => "418"
  | 500 => "500" | 501 => "501" | 502 => "502" | 503 => "503"
  | 504 => "504" | 505 => "505"
  | 428 => "428" | 429 => "429" | 431 => "431" | 511 => "511"
  | _ => toString s

/-- A call the middleware makes on the metrics backend during one request. -/
inductive MetricEvent where
  | gaugeInc (label : String)
  | gaugeDec (label : String)
  | counterInc (method code : String)
  | histObserve (seconds : Rat)
  | summaryObserve (bytes : Int)
  deriving DecidableEq, Repr

/-- The per-request body of the handler returned by
`InstrumentHandlerFuncWithOpts` (lines 178-206), as the sequence of metrics
backend calls it performs. The wrapped handler is represented by its effect
on the fresh delegator: `none` models abnormal termination (panic). Gauge
increment uses the raw `r.Method`; the deferred decrement (`defer f.Dec()`)
runs on every exit path, so on panic it is the only remaining event; on
normal return it runs after the counter/histogram/summary observations.
`elapsed` is the measured wall time in seconds. -/
def runMiddleware (rawMethod : String) (elapsed : Rat)
    (handler : responseWriterDelegator → Option responseWriterDelegator) :
    List MetricEvent :=
  MetricEvent.gaugeInc rawMethod ::
    match handler initDelegator with
    | none => [MetricEvent.gaugeDec rawMethod]
    | some d =>
        [MetricEvent.counterInc (sanitizeMethod rawMethod) (sanitizeCode d.status),
         MetricEvent.histObserve elapsed,
         MetricEvent.summaryObserve d.written,
         MetricEvent.gaugeDec rawMethod]

/-- Net effect of a list of metric events on the in-flight gauge labelled
`l`: +1 per increment, -1 per decrement. -/
def gaugeDelta (evs : List MetricEvent) (l : String) : Int :=
  evs.foldl
    (fun a e =>
      match e with
      | MetricEvent.gaugeInc m => if m = l then a + 1 else a
      | MetricEvent.gaugeDec m => if m = l then a - 1 else a
      | _ => a) 0

/-- A counter/histogram/summary observation (everything but the gauge). -/
def MetricEvent.isObservation : MetricEvent → Bool
  | MetricEvent.counterInc _ _ => true
  | MetricEvent.histObserve _ => true
  | MetricEvent.summaryObserve _ => true
  | _ => false

/-- The optional response-writer capabilities the source deals with:
`http.CloseNotifier`, `http.Flusher`, `http.Hijacker`, `io.ReaderFrom`,
`http.Pusher`, and the unexported `stringWriter` interface. -/
inductive Capability where
  | closeNotify | flush | hijack | readerFrom | push | stringWrite
  deriving DecidableEq, Repr

/-- Which optional interfaces the concrete underlying `http.ResponseWriter`
implements (the results of the type assertions `w.(http.CloseNotifier)`
etc.). -/
structure Capabilities where
  closeNotify : Bool
  flush : Bool
  hijack : Bool
  readerFrom : Bool
  push : Bool
  stringWrite : Bool
  deriving DecidableEq, Repr

/-- Whether the underlying writer supports a given capability. -/
def Capabilities.has (c : Capabilities) : Capability → Bool
  | Capability.closeNotify => c.closeNotify
  | Capability.flush => c.flush
  | Capability.hijack => c.hijack
  | Capability.readerFrom => c.readerFrom
  | Capability.push => c.push
  | Capability.stringWrite => c.stringWrite

/-- The two decorator variants the middleware can hand to the handler:
the plain `responseWriterDelegator` or the `fancyResponseWriterDelegator`. -/
inductive WriterKind where
  | plain | fancy
  deriving DecidableEq, Repr

/-- The capability probe and variant selection in
`InstrumentHandlerFuncWithOpts` (lines 188-197): the fancy delegator is
chosen exactly when the underlying writer supports CloseNotifier, Flusher,
Hijacker and ReaderFrom all at once; otherwise the plain delegator. -/
def selectWriter (c : Capabilities) : WriterKind :=
  if c.closeNotify && c.flush && c.hijack && c.readerFrom then
    WriterKind.fancy
  else
    WriterKind.plain

/-- Capabilities reachable through each decorator variant's method set:
the plain delegator (embedding only the `http.ResponseWriter` interface)
promotes no optional methods; `fancyResponseWriterDelegator` defines
`CloseNotify`, `Flush`, `Hijack`, `ReadFrom` (lines 237-256) and nothing
else — in particular neither variant exposes `Push` or `WriteString`. -/
def exposedHas : WriterKind → Capability → Bool
  | WriterKind.plain, _ => false
  | WriterKind.fancy, Capability.closeNotify => true
  | WriterKind.fancy, Capability.flush => true
  | WriterKind.fancy, Capability.hijack => true
  | WriterKind.fancy, Capability.readerFrom => true
  | WriterKind.fancy, _ => false

/-- The four capabilities `fancyResponseWriterDelegator` implements
(lines 237-256). -/
def fancyGroup : Capability → Bool
  | Capability.closeNotify => true
  | Capability.flush => true
  | Capability.hijack => true
  | Capability.readerFrom => true
  | _ => false

/-- The runtime type assertion each fancy method performs on the underlying
writer (e.g. `f.ResponseWriter.(http.Flusher)` in `Flush`): succeeds when
the capability is present, otherwise a Go interface-conversion panic. -/
def assertCap (c : Capabilities) (cap : Capability) : Except String Unit :=
  if c.has cap then Except.ok () else Except.error "interface conversion panic"

/-- The kind of a Prometheus collector. -/
inductive MetricKind where
  | gauge | counter | histogram | summary
  deriving DecidableEq, Repr

/-- The caller-supplied `prometheus.Opts` (namespace, subsystem, constant
labels; `Name` and `Help` are overridden by the middleware). -/
structure Opts where
  namespaceStr : String := ""
  subsystem : String := ""
  constLabels : List (String × String) := []
  deriving DecidableEq, Repr

/-- The options a collector is created with, as the source fills them in. -/
structure MetricSpec where
  kind : MetricKind
  namespaceStr : String
  subsystem : String
  name : String
  help : String
  constLabels : List (String × String)
  variableLabels : List String
  buckets : List Rat := []
  objectives : List (Rat × Rat) := []
  deriving DecidableEq, Repr

/-- `instLabels` (instrument.go line 90). -/
def instLabels : List String := ["method", "code"]

/-- The `GaugeOpts` for `inflight_requests` (lines 100-108): namespace,
subsystem, name and help only — the `ConstLabels` field is left at its Go
zero value (nil), and the variable labels are `{"method"}`. -/
def inFlightReqSpec (opts : Opts) : MetricSpec :=
  { kind := MetricKind.gauge,
    namespaceStr := opts.namespaceStr, subsystem := opts.subsystem,
    name := "inflight_requests", help := "In-flight HTTP requests.",
    constLabels := [], variableLabels := ["method"] }

/-- The `CounterOpts` for `requests_total` (lines 117-126): carries
`opts.ConstLabels` and the variable labels `instLabels`. -/
def reqCntSpec (opts : Opts) : MetricSpec :=
  { kind := MetricKind.counter,
    namespaceStr := opts.namespaceStr, subsystem := opts.subsystem,
    name := "requests_total", help := "Total number of HTTP requests made.",
    constLabels := opts.constLabels, variableLabels := instLabels }

/-- The `HistogramOpts` for `request_duration_seconds` (lines 135-142):
explicit buckets; the `ConstLabels` field is left at its Go zero value. -/
def reqDurSpec (opts : Opts) : MetricSpec :=
  { kind := MetricKind.histogram,
    namespaceStr := opts.namespaceStr, subsystem := opts.subsystem,
    name := "request_duration_seconds",
    help := "The HTTP request latencies in seconds.",
    constLabels := [], variableLabels := [],
    buckets := [1/20, 1/10, 1/5, 3/10, 2/5, 1/2, 3/5, 7/10,
                4/5, 9/10, 1, 2, 5, 10, 20, 30, 40, 50] }

/-- The `SummaryOpts` for `response_size_bytes` (lines 162-169): carries
`opts.ConstLabels` and the default quantile objectives. -/
def resSzSpec (opts : Opts) : MetricSpec :=
  { kind := MetricKind.summary,
    namespaceStr := opts.namespaceStr, subsystem := opts.subsystem,
    name := "response_size_bytes",
    help := "The HTTP response sizes in bytes.",
    constLabels := opts.constLabels, variableLabels := [],
    objectives := [(1/2, 1/20), (9/10, 1/100), (99/100, 1/1000)] }

/-- The `prometheus.Opts` that `InstrumentHandlerFunc(handlerName, ...)`
builds (lines 48-56): subsystem "http" and the handler name as the value of
the constant label "handler". -/
def handlerOpts (handlerName : String) : Opts :=
  { subsystem := "http", constLabels := [("handler", handlerName)] }

/-- Outcome of `prometheus.Register` for one collector, as the registry
(an external collaborator) reports it: registered fresh (nil error), an
`AlreadyRegisteredError` carrying the existing compatible collector, or any
other registration error. -/
inductive RegOutcome where
  | fresh
  | alreadyRegistered (existing : MetricSpec)
  | otherError (msg : String)
  deriving DecidableEq, Repr

/-- The register-or-reuse-or-panic pattern repeated for each of the four
collectors (lines 109-115, 127-133, 143-149, 170-176): on nil error keep
the freshly created collector; on `AlreadyRegisteredError` replace it with
the existing collector; on any other error `panic(err)` (modelled as
`Except.error`, aborting construction). -/
def registerCollector (created : MetricSpec) :
    RegOutcome → Except String MetricSpec
  | RegOutcome.fresh => Except.ok created
  | RegOutcome.alreadyRegistered existing => Except.ok existing
  | RegOutcome.otherError msg => Except.error msg

/-- The four metric handles the middleware holds after construction. -/
structure Handles where
  inFlightReq : MetricSpec
  reqCnt : MetricSpec
  reqDur : MetricSpec
  resSz : MetricSpec
  deriving DecidableEq, Repr

/-- The construction phase of `InstrumentHandlerFuncWithOpts` (lines
99-176): create the four collectors from `opts` and register each with the
register-or-reuse-or-panic pattern, in source order; a panic on any of them
aborts construction before any request handler exists. `rg`, `rc`, `rh`,
`rs` are the registry's outcomes for the four registrations. -/
def constructHandles (opts : Opts)
    (rg rc rh rs : RegOutcome) : Except String Handles := do
  let g ← registerCollector (inFlightReqSpec opts) rg
  let c ← registerCollector (reqCntSpec opts) rc
  let h ← registerCollector (reqDurSpec opts) rh
  let s ← registerCollector (resSzSpec opts) rs
  return { inFlightReq := g, reqCnt := c, reqDur := h, resSz := s }

/-! ## Helper lemmas -/

/-- The byte count the underlying writer reports for one op (what the
delegator adds to `written`); zero for non-writing ops. -/
def reportedBytes : HOp → Int
  | HOp.write _ n _ => n
  | HOp.writeString _ n _ => n
  | HOp.readFrom n _ => n
  | _ => 0

theorem applyOp_written (r : responseWriterDelegator) (op : HOp) :
    (applyOp r op).written = r.written + reportedBytes op := by
  cases op <;>
    cases hw : r.wroteHeader <;>
      simp [applyOp, reportedBytes, responseWriterDelegator.Write,
        rwShared.WriteString, fancyResponseWriterDelegator.ReadFrom,
        fancyResponseWriterDelegator.Flush, responseWriterDelegator.WriteHeader, hw]

theorem runOps_written (ops : List HOp) :
    ∀ r : responseWriterDelegator,
      (runOps r ops).written = r.written + (ops.map reportedBytes).sum := by
  induction ops with
  | nil => intro r; simp [runOps]
  | cons op rest ih =>
      intro r
      simp [runOps, ih (applyOp r op), applyOp_written, add_assoc]

theorem applyOp_committed (r : responseWriterDelegator) (op : HOp)
    (hw : r.wroteHeader = true) (hno : op.isSetStatus = false) :
    (applyOp r op).status = r.status ∧ (applyOp r op).wroteHeader = true := by
  cases op <;>
    simp_all [applyOp, HOp.isSetStatus, responseWriterDelegator.Write,
      rwShared.WriteString, fancyResponseWriterDelegator.ReadFrom,
      fancyResponseWriterDelegator.Flush, responseWriterDelegator.WriteHeader]

theorem runOps_committed (ops : List HOp) :
    ∀ r : responseWriterDelegator, r.wroteHeader = true →
      (∀ op ∈ ops, op.isSetStatus = false) →
      (runOps r ops).status = r.status ∧ (runOps r ops).wroteHeader = true := by
  induction ops with
  | nil => intro r hw _; exact ⟨rfl, hw⟩
  | cons op rest ih =>
      intro r hw hno
      have hop := hno op (List.mem_cons_self _ _)
      have h1 := applyOp_committed r op hw hop
      have h2 := ih (applyOp r op) h1.2 (fun o ho => hno o (List.mem_cons_of_mem _ ho))
      exact ⟨h2.1.trans h1.1, h2.2⟩

theorem applyOp_neutral (r : responseWriterDelegator) (op : HOp)
    (hb : op.isBodyWrite = false) (hs : op.isSetStatus = false) :
    (applyOp r op).status = r.status ∧ (applyOp r op).written = r.written ∧
      (applyOp r op).wroteHeader = r.wroteHeader := by
  cases op <;>
    simp_all [applyOp, HOp.isBodyWrite, HOp.isSetStatus,
      fancyResponseWriterDelegator.Flush]

theorem runOps_neutral (ops : List HOp) :
    ∀ r : responseWriterDelegator,
      (∀ op ∈ ops, op.isBodyWrite = false ∧ op.isSetStatus = false) →
      (runOps r ops).status = r.status ∧ (runOps r ops).written = r.written ∧
        (runOps r ops).wroteHeader = r.wroteHeader := by
  induction ops with
  | nil => intro r _; exact ⟨rfl, rfl, rfl⟩
  | cons op rest ih =>
      intro r hno
      have hop := hno op (List.mem_cons_self _ _)
      have h1 := applyOp_neutral r op hop.1 hop.2
      have h2 := ih (applyOp r op) (fun o ho => hno o (List.mem_cons_of_mem _ ho))
      exact ⟨h2.1.trans h1.1, (h2.2.1).trans h1.2.1, (h2.2.2).trans h1.2.2⟩

theorem runOps_append (a b : List HOp) :
    ∀ r : responseWriterDelegator, runOps r (a ++ b) = runOps (runOps r a) b := by
  induction a with
  | nil => intro r; rfl
  | cons op rest ih => intro r; simpa [runOps] using ih (applyOp r op)

/-! ## Claim theorems -/

/-- C1, counterexample: calling `WriteHeader` with 200 and then 404 records
404, not 200, as the instrumented status — `WriteHeader` overwrites
`status` on every call — while both calls are forwarded to the underlying
channel. The claim's first-write-wins behavior does not hold. -/
theorem writeHeader_first_write_wins_refuted :
    (runOps initDelegator [HOp.writeHeader 200, HOp.writeHeader 404]).status = 404
    ∧ (runOps initDelegator [HOp.writeHeader 200, HOp.writeHeader 404]).status ≠ 200
    ∧ (runOps initDelegator [HOp.writeHeader 200, HOp.writeHeader 404]).fwd
        = [FwdEvent.writeHeader 200, FwdEvent.writeHeader 404] := by
  decide

/-- C1, amended: every `WriteHeader`/`setStatus` call records its code as
the instrumented status (overwriting any earlier one — last-write-wins),
sets `wroteHeader`, and forwards its code to the underlying channel; hence
the status instrumented for a request is the code of the last
`WriteHeader` call (no later call changes it, body writes included). -/
theorem writeHeader_records_last_code
    (r : responseWriterDelegator) (code : Int)
    (ops1 : List HOp) (c : Int) (ops2 : List HOp)
    (h2 : ∀ op ∈ ops2, op.isSetStatus = false) :
    (r.WriteHeader code).status = code
    ∧ (r.WriteHeader code).wroteHeader = true
    ∧ (r.WriteHeader code).fwd = r.fwd ++ [FwdEvent.writeHeader code]
    ∧ (runOps initDelegator (ops1 ++ HOp.writeHeader c :: ops2)).status = c := by
  refine ⟨rfl, rfl, rfl, ?_⟩
  rw [runOps_append]
  exact (runOps_committed ops2 ((runOps initDelegator ops1).WriteHeader c) rfl h2).1

/-- Witness for `writeHeader_records_last_code` at concrete inputs. -/
theorem writeHeader_records_last_code_witness :
    (initDelegator.WriteHeader 200).status = 200
    ∧ (initDelegator.WriteHeader 200).wroteHeader = true
    ∧ (initDelegator.WriteHeader 200).fwd = initDelegator.fwd ++ [FwdEvent.writeHeader 200]
    ∧ (runOps initDelegator
        ([HOp.writeHeader 200] ++ HOp.writeHeader 404 :: [HOp.write 3 3 none])).status
        = 404 :=
  writeHeader_records_last_code initDelegator 200 [HOp.writeHeader 200] 404
    [HOp.write 3 3 none] (by decide)

/-- C2, counterexample: an underlying channel that supports only the flush
capability gets the plain delegator (the fancy variant requires all four of
close-notify, flush, hijack, ReadFrom at once), so the handler cannot
invoke flush through the decorator even though the channel supports it. -/
theorem capability_preservation_refuted :
    (Capabilities.mk false true false false false false).has Capability.flush = true
    ∧ exposedHas
        (selectWriter (Capabilities.mk false true false false false false))
        Capability.flush = false := by
  decide

/-- C2, amended: the decorator exposes the close-notify/flush/hijack/
ReadFrom capability group exactly when the underlying channel supports all
four of those capabilities simultaneously; push and string-write are never
exposed through the decorator regardless of channel support. -/
theorem exposed_capability_characterization
    (c : Capabilities) (cap : Capability) :
    exposedHas (selectWriter c) cap
      = ((c.closeNotify && c.flush && c.hijack && c.readerFrom) && fancyGroup cap) := by
  rcases c with ⟨a, b, c1, d, e, f⟩
  cases a <;> cases b <;> cases c1 <;> cases d <;> cases cap <;> rfl

/-- C3: every capability reachable through the decorator variant the
middleware selects is supported by the underlying channel, so the type
assertion inside the corresponding fancy method succeeds — invoking an
unsupported optional operation through the decorator is impossible, never a
late runtime failure. -/
theorem decorator_exposes_only_supported
    (c : Capabilities) (cap : Capability)
    (h : exposedHas (selectWriter c) cap = true) :
    c.has cap = true ∧ assertCap c cap = Except.ok () := by
  rcases c with ⟨a, b, c1, d, e, f⟩
  cases a <;> cases b <;> cases c1 <;> cases d <;> cases cap <;>
    simp_all [selectWriter, exposedHas, Capabilities.has, assertCap]

/-- Witness for `decorator_exposes_only_supported`: a fully capable
channel, probing the flush capability. -/
theorem decorator_exposes_only_supported_witness :
    (Capabilities.mk true true true true true true).has Capability.flush = true
    ∧ assertCap (Capabilities.mk true true true true true true) Capability.flush
        = Except.ok () :=
  decorator_exposes_only_supported
    (Capabilities.mk true true true true true true) Capability.flush (by decide)

/-- C4: the in-flight gauge decrement (`defer f.Dec()`) executes on every
exit path — the net gauge delta of a request is zero for every label
whether the handler returns normally or panics — and when the handler
panics, no counter/histogram/summary observation is emitted. -/
theorem gauge_paired_and_panic_skips_observations
    (raw : String) (elapsed : Rat)
    (handler : responseWriterDelegator → Option responseWriterDelegator)
    (l : String) :
    gaugeDelta (runMiddleware raw elapsed handler) l = 0
    ∧ (handler initDelegator = none →
        (runMiddleware raw elapsed handler).filter MetricEvent.isObservation = []) := by
  constructor
  · cases h : handler initDelegator <;>
      by_cases hl : raw = l <;>
        simp [runMiddleware, h, gaugeDelta, hl]
  · intro h
    simp [runMiddleware, h, MetricEvent.isObservation]

/-- Witness for `gauge_paired_and_panic_skips_observations`: a panicking
handler. -/
theorem gauge_paired_and_panic_skips_observations_witness :
    gaugeDelta (runMiddleware "GET" 0 (fun _ => none)) "GET" = 0
    ∧ ((fun _ => none : responseWriterDelegator → Option responseWriterDelegator)
          initDelegator = none →
        (runMiddleware "GET" 0 (fun _ => none)).filter MetricEvent.isObservation = []) :=
  gauge_paired_and_panic_skips_observations "GET" 0 (fun _ => none) "GET"

/-- C5: when the handler performs a sequence of writes whose requested
lengths are `blens` and every write succeeds fully (the underlying channel
reports the full length written, nil error), the final written count is
exactly the total requested `W`, and the middleware observes exactly `W`
into the response-size summary after the handler returns. -/
theorem summary_observes_requested_total
    (blens : List Nat) (raw : String) (elapsed : Rat) :
    (runOps initDelegator (blens.map fun b => HOp.write b (Int.ofNat b) none)).written
      = (blens.map fun b => Int.ofNat b).sum
    ∧ MetricEvent.summaryObserve ((blens.map fun b => Int.ofNat b).sum)
        ∈ runMiddleware raw elapsed
            (fun r => some (runOps r (blens.map fun b => HOp.write b (Int.ofNat b) none))) := by
  have hw : (runOps initDelegator (blens.map fun b => HOp.write b (Int.ofNat b) none)).written
      = (blens.map fun b => Int.ofNat b).sum := by
    rw [runOps_written, List.map_map]
    have hfun : (reportedBytes ∘ fun b : Nat => HOp.write b (Int.ofNat b) none)
        = fun b : Nat => Int.ofNat b := rfl
    rw [hfun]
    show (0 : Int) + _ = _
    rw [zero_add]
  refine ⟨hw, ?_⟩
  simp only [runMiddleware, hw]
  simp

/-- C6, counterexample: a body write occurs before any explicit
`WriteHeader` call, yet the instrumented status ends up 404, not 200,
because a later explicit `WriteHeader(404)` overwrites the implicit 200. -/
theorem implicit_200_overwritten_by_later_writeHeader :
    (runOps initDelegator [HOp.write 1 1 none, HOp.writeHeader 404]).status = 404
    ∧ (runOps initDelegator [HOp.write 1 1 none, HOp.writeHeader 404]).status ≠ 200 := by
  decide

/-- C6, amended: if the first body write (`Write`, `WriteString` or
`ReadFrom`) happens before any explicit `WriteHeader`, then status 200 is
recorded and `wroteHeader` set, the forwarded `WriteHeader(200)` precedes
the forwarded body write on the underlying channel, and 200 is the
instrumented status provided no explicit `WriteHeader` call occurs later in
the request (a later call overwrites the recorded status). -/
theorem implicit_200_before_first_body_write
    (ops1 : List HOp) (op : HOp) (ops2 : List HOp)
    (h1 : ∀ o ∈ ops1, o.isBodyWrite = false ∧ o.isSetStatus = false)
    (hop : op.isBodyWrite = true)
    (h2 : ∀ o ∈ ops2, o.isSetStatus = false) :
    (applyOp (runOps initDelegator ops1) op).status = 200
    ∧ (applyOp (runOps initDelegator ops1) op).wroteHeader = true
    ∧ (∃ ev : FwdEvent,
        (applyOp (runOps initDelegator ops1) op).fwd
          = (runOps initDelegator ops1).fwd ++ [FwdEvent.writeHeader 200, ev])
    ∧ (runOps initDelegator (ops1 ++ op :: ops2)).status = 200 := by
  have hnw : (runOps initDelegator ops1).wroteHeader = false :=
    (runOps_neutral ops1 initDelegator h1).2.2.trans rfl
  have key : (applyOp (runOps initDelegator ops1) op).status = 200
      ∧ (applyOp (runOps initDelegator ops1) op).wroteHeader = true
      ∧ ∃ ev : FwdEvent, (applyOp (runOps initDelegator ops1) op).fwd
          = (runOps initDelegator ops1).fwd ++ [FwdEvent.writeHeader 200, ev] := by
    cases op with
    | writeHeader c => simp [HOp.isBodyWrite] at hop
    | flush => simp [HOp.isBodyWrite] at hop
    | write blen n err =>
        refine ⟨?_, ?_, ⟨FwdEvent.write blen, ?_⟩⟩ <;>
          simp [applyOp, responseWriterDelegator.Write,
            responseWriterDelegator.WriteHeader, hnw]
    | writeString slen n err =>
        refine ⟨?_, ?_, ⟨FwdEvent.writeString slen, ?_⟩⟩ <;>
          simp [applyOp, rwShared.WriteString,
            responseWriterDelegator.WriteHeader, hnw]
    | readFrom n err =>
        refine ⟨?_, ?_, ⟨FwdEvent.readFrom, ?_⟩⟩ <;>
          simp [applyOp, fancyResponseWriterDelegator.ReadFrom,
            responseWriterDelegator.WriteHeader, hnw]
  refine ⟨key.1, key.2.1, key.2.2, ?_⟩
  rw [runOps_append]
  exact (runOps_committed ops2 (applyOp (runOps initDelegator ops1) op)
    key.2.1 h2).1.trans key.1

/-- Witness for `implicit_200_before_first_body_write`: a single fully
successful 5-byte write and nothing else. -/
theorem implicit_200_before_first_body_write_witness :
    (applyOp (runOps initDelegator []) (HOp.write 5 5 none)).status = 200
    ∧ (applyOp (runOps initDelegator []) (HOp.write 5 5 none)).wroteHeader = true
    ∧ (∃ ev : FwdEvent,
        (applyOp (runOps initDelegator []) (HOp.write 5 5 none)).fwd
          = (runOps initDelegator []).fwd ++ [FwdEvent.writeHeader 200, ev])
    ∧ (runOps initDelegator ([] ++ HOp.write 5 5 none :: [])).status = 200 :=
  implicit_200_before_first_body_write [] (HOp.write 5 5 none) []
    (by simp) rfl (by simp)

/-- C7: `Write` returns exactly the byte count and error the underlying
channel returned, unchanged, and adds exactly the reported count to the
running `written` total (also under short writes or errors, where `n` and
`err` are arbitrary); over a whole run the total written is the sum of the
reported counts, not the requested lengths. -/
theorem write_forwards_underlying_result
    (r : responseWriterDelegator) (blen : Nat) (n : Int) (err : Option String)
    (writes : List (Nat × Int × Option String)) :
    (r.Write blen n err).2.1 = n
    ∧ (r.Write blen n err).2.2 = err
    ∧ ((r.Write blen n err).1).written = r.written + n
    ∧ (runOps r (writes.map fun w => HOp.write w.1 w.2.1 w.2.2)).written
        = r.written + (writes.map fun w => w.2.1).sum := by
  refine ⟨rfl, rfl, ?_, ?_⟩
  · cases hw : r.wroteHeader <;>
      simp [responseWriterDelegator.Write, responseWriterDelegator.WriteHeader, hw]
  · rw [runOps_written, List.map_map]
    have hfun : (reportedBytes ∘ fun w : Nat × Int × Option String =>
          HOp.write w.1 w.2.1 w.2.2)
        = fun w : Nat × Int × Option String => w.2.1 := rfl
    rw [hfun]

/-- C8: with the opts built by `InstrumentHandlerFunc("test", ...)` — the
handler name as the constant label `("handler", "test")` — the counter and
summary carry the label, but the in-flight gauge and the duration histogram
are created with empty constant labels: not all four metric handles carry
the handler name, contradicting the function's own documentation. -/
theorem handler_label_dropped_on_gauge_and_histogram :
    (inFlightReqSpec (handlerOpts "test")).constLabels = []
    ∧ (reqDurSpec (handlerOpts "test")).constLabels = []
    ∧ (reqCntSpec (handlerOpts "test")).constLabels = [("handler", "test")]
    ∧ (resSzSpec (handlerOpts "test")).constLabels = [("handler", "test")] :=
  ⟨rfl, rfl, rfl, rfl⟩

/-- C9: registration is idempotent — when each of the four registrations
reports an already-registered compatible collector, construction succeeds
and reuses exactly the existing handles — and any other registration error
makes construction fail (the `panic(err)` at wrap time), before any request
handler exists. -/
theorem registration_idempotent_and_fatal
    (opts : Opts) (eg ec eh es : MetricSpec)
    (rg rc rh rs : RegOutcome) (msg : String)
    (h : rg = RegOutcome.otherError msg ∨ rc = RegOutcome.otherError msg
      ∨ rh = RegOutcome.otherError msg ∨ rs = RegOutcome.otherError msg) :
    constructHandles opts (RegOutcome.alreadyRegistered eg)
        (RegOutcome.alreadyRegistered ec) (RegOutcome.alreadyRegistered eh)
        (RegOutcome.alreadyRegistered es)
      = Except.ok { inFlightReq := eg, reqCnt := ec, reqDur := eh, resSz := es }
    ∧ ∃ m : String, constructHandles opts rg rc rh rs = Except.error m := by
  refine ⟨rfl, ?_⟩
  cases rg <;> cases rc <;> cases rh <;> cases rs <;>
    first
      | exact ⟨_, rfl⟩
      | simp_all

/-- Witness for `registration_idempotent_and_fatal`: the gauge registration
fails with an incompatible-collector error. -/
theorem registration_idempotent_and_fatal_witness :
    constructHandles {} (RegOutcome.alreadyRegistered (inFlightReqSpec {}))
        (RegOutcome.alreadyRegistered (reqCntSpec {}))
        (RegOutcome.alreadyRegistered (reqDurSpec {}))
        (RegOutcome.alreadyRegistered (resSzSpec {}))
      = Except.ok { inFlightReq := inFlightReqSpec {}, reqCnt := reqCntSpec {},
                    reqDur := reqDurSpec {}, resSz := resSzSpec {} }
    ∧ ∃ m : String, constructHandles {} (RegOutcome.otherError "incompatible collector")
        RegOutcome.fresh RegOutcome.fresh RegOutcome.fresh = Except.error m :=
  registration_idempotent_and_fatal {} (inFlightReqSpec {}) (reqCntSpec {})
    (reqDurSpec {}) (resSzSpec {}) (RegOutcome.otherError "incompatible collector")
    RegOutcome.fresh RegOutcome.fresh RegOutcome.fresh "incompatible collector"
    (Or.inl rfl)

/-- C10: a request with no body write and no explicit `WriteHeader` leaves
the recorded status at its zero value 0, and the request counter is
incremented with code label "0" (the decimal string of 0, via
`sanitizeCode`'s `strconv.Itoa` default branch). -/
theorem no_write_no_status_records_code_zero
    (ops : List HOp) (raw : String) (elapsed : Rat)
    (h : ∀ op ∈ ops, op.isBodyWrite = false ∧ op.isSetStatus = false) :
    (runOps initDelegator ops).status = 0
    ∧ sanitizeCode (runOps initDelegator ops).status = "0"
    ∧ MetricEvent.counterInc (sanitizeMethod raw) "0"
        ∈ runMiddleware raw elapsed (fun r => some (runOps r ops)) := by
  have hs : (runOps initDelegator ops).status = 0 :=
    (runOps_neutral ops initDelegator h).1.trans rfl
  have hc : sanitizeCode (runOps initDelegator ops).status = "0" := by
    rw [hs]; rfl
  refine ⟨hs, hc, ?_⟩
  simp [runMiddleware, hc]

/-- Witness for `no_write_no_status_records_code_zero`: a handler that only
flushes. -/
theorem no_write_no_status_records_code_zero_witness :
    (runOps initDelegator [HOp.flush]).status = 0
    ∧ sanitizeCode (runOps initDelegator [HOp.flush]).status = "0"
    ∧ MetricEvent.counterInc (sanitizeMethod "GET") "0"
        ∈ runMiddleware "GET" 0 (fun r => some (runOps r [HOp.flush])) :=
  no_write_no_status_records_code_zero [HOp.flush] "GET" 0 (by decide)
